import Mathlib

/-!
Shallow embedding of `src/route/main_darwin.go` (repository leslie-wang/netutil):
a one-shot dump of the IPv4 routing table on darwin.  The program fetches the
RIB over the routing socket, parses it with `golang.org/x/net/route`, filters
and formats each route message, and prints a tab-separated table.

Modelling conventions:
- Go `int` bitmasks are modelled as `Nat` (the flag constants are small
  positive values; the bitwise tests `t & c == c` agree with `Nat.land`).
- Go `byte` values are modelled as `Nat`, with an explicit `% 256` applied at
  the points where Go's `byte` type truncates (mask construction, byte shifts,
  hex rendering).
- The OS interface table (`net.InterfaceByIndex`) is a parameter
  `Nat → Option String` (interface index to name; `none` models the error
  return).
- The RIB fetch and parse (`route.FetchRIB` / `route.ParseRIB`) are parameters
  returning `Except`; parsed messages are route messages or non-route
  messages.
- Diagnostic lines printed with `fmt.Printf`/`fmt.Println` are modelled by
  their constant format string; the dynamic `%v`/`%d` payload of a diagnostic
  is not modelled (no claim depends on the payload, only on which diagnostic
  fires and on which stream it is written).
-/

/-! ## Flag constants (darwin `syscall` values used by the source) -/

def RTF_BLACKHOLE : Nat := 0x1000
def RTF_BROADCAST : Nat := 0x400000
def RTF_CLONING : Nat := 0x100
def RTF_CONDEMNED : Nat := 0x2000000
def RTF_DELCLONE : Nat := 0x80
def RTF_DONE : Nat := 0x40
def RTF_DYNAMIC : Nat := 0x10
def RTF_GATEWAY : Nat := 0x2
def RTF_HOST : Nat := 0x4
def RTF_IFREF : Nat := 0x4000000
def RTF_IFSCOPE : Nat := 0x1000000
def RTF_LLINFO : Nat := 0x400
def RTF_LOCAL : Nat := 0x200000
def RTF_MODIFIED : Nat := 0x20
def RTF_MULTICAST : Nat := 0x800000
def RTF_PINNED : Nat := 0x100000
def RTF_PRCLONING : Nat := 0x10000
def RTF_PROTO1 : Nat := 0x8000
def RTF_PROTO2 : Nat := 0x4000
def RTF_PROTO3 : Nat := 0x40000
def RTF_REJECT : Nat := 0x8
def RTF_STATIC : Nat := 0x800
def RTF_UP : Nat := 0x1
def RTF_WASCLONED : Nat := 0x20000
def RTF_XRESOLVE : Nat := 0x200

/-- Address family constants (darwin): `syscall.AF_INET` and `syscall.AF_LINK`. -/
def AF_INET : Nat := 2

def AF_LINK : Nat := 18

/-- The fixed (mask, name) table scanned by `getFlags`, in the source's scan
order (the order of the successive `if` statements in `getFlags` in
`main_darwin.go`, which is alphabetical by flag name). -/
def rtfTable : List (Nat × String) :=
  [(RTF_BLACKHOLE, "RTF_BLACKHOLE"),
   (RTF_BROADCAST, "RTF_BROADCAST"),
   (RTF_CLONING, "RTF_CLONING"),
   (RTF_CONDEMNED, "RTF_CONDEMNED"),
   (RTF_DELCLONE, "RTF_DELCLONE"),
   (RTF_DONE, "RTF_DONE"),
   (RTF_DYNAMIC, "RTF_DYNAMIC"),
   (RTF_GATEWAY, "RTF_GATEWAY"),
   (RTF_HOST, "RTF_HOST"),
   (RTF_IFREF, "RTF_IFREF"),
   (RTF_IFSCOPE, "RTF_IFSCOPE"),
   (RTF_LLINFO, "RTF_LLINFO"),
   (RTF_LOCAL, "RTF_LOCAL"),
   (RTF_MODIFIED, "RTF_MODIFIED"),
   (RTF_MULTICAST, "RTF_MULTICAST"),
   (RTF_PINNED, "RTF_PINNED"),
   (RTF_PRCLONING, "RTF_PRCLONING"),
   (RTF_PROTO1, "RTF_PROTO1"),
   (RTF_PROTO2, "RTF_PROTO2"),
   (RTF_PROTO3, "RTF_PROTO3"),
   (RTF_REJECT, "RTF_REJECT"),
   (RTF_STATIC, "RTF_STATIC"),
   (RTF_UP, "RTF_UP"),
   (RTF_WASCLONED, "RTF_WASCLONED"),
   (RTF_XRESOLVE, "RTF_XRESOLVE")]

/-- Embedding of `getFlags` from `main_darwin.go`: a chain of 25 `if`
statements, each appending one flag name to `ret` when `t & RTF_X == RTF_X`. -/
def getFlags (t : Nat) : List String :=
  let ret : List String := []
  let ret := if t &&& RTF_BLACKHOLE = RTF_BLACKHOLE then ret ++ ["RTF_BLACKHOLE"] else ret
  let ret := if t &&& RTF_BROADCAST = RTF_BROADCAST then ret ++ ["RTF_BROADCAST"] else ret
  let ret := if t &&& RTF_CLONING = RTF_CLONING then ret ++ ["RTF_CLONING"] else ret
  let ret := if t &&& RTF_CONDEMNED = RTF_CONDEMNED then ret ++ ["RTF_CONDEMNED"] else ret
  let ret := if t &&& RTF_DELCLONE = RTF_DELCLONE then ret ++ ["RTF_DELCLONE"] else ret
  let ret := if t &&& RTF_DONE = RTF_DONE then ret ++ ["RTF_DONE"] else ret
  let ret := if t &&& RTF_DYNAMIC = RTF_DYNAMIC then ret ++ ["RTF_DYNAMIC"] else ret
  let ret := if t &&& RTF_GATEWAY = RTF_GATEWAY then ret ++ ["RTF_GATEWAY"] else ret
  let ret := if t &&& RTF_HOST = RTF_HOST then ret ++ ["RTF_HOST"] else ret
  let ret := if t &&& RTF_IFREF = RTF_IFREF then ret ++ ["RTF_IFREF"] else ret
  let ret := if t &&& RTF_IFSCOPE = RTF_IFSCOPE then ret ++ ["RTF_IFSCOPE"] else ret
  let ret := if t &&& RTF_LLINFO = RTF_LLINFO then ret ++ ["RTF_LLINFO"] else ret
  let ret := if t &&& RTF_LOCAL = RTF_LOCAL then ret ++ ["RTF_LOCAL"] else ret
  let ret := if t &&& RTF_MODIFIED = RTF_MODIFIED then ret ++ ["RTF_MODIFIED"] else ret
  let ret := if t &&& RTF_MULTICAST = RTF_MULTICAST then ret ++ ["RTF_MULTICAST"] else ret
  let ret := if t &&& RTF_PINNED = RTF_PINNED then ret ++ ["RTF_PINNED"] else ret
  let ret := if t &&& RTF_PRCLONING = RTF_PRCLONING then ret ++ ["RTF_PRCLONING"] else ret
  let ret := if t &&& RTF_PROTO1 = RTF_PROTO1 then ret ++ ["RTF_PROTO1"] else ret
  let ret := if t &&& RTF_PROTO2 = RTF_PROTO2 then ret ++ ["RTF_PROTO2"] else ret
  let ret := if t &&& RTF_PROTO3 = RTF_PROTO3 then ret ++ ["RTF_PROTO3"] else ret
  let ret := if t &&& RTF_REJECT = RTF_REJECT then ret ++ ["RTF_REJECT"] else ret
  let ret := if t &&& RTF_STATIC = RTF_STATIC then ret ++ ["RTF_STATIC"] else ret
  let ret := if t &&& RTF_UP = RTF_UP then ret ++ ["RTF_UP"] else ret
  let ret := if t &&& RTF_WASCLONED = RTF_WASCLONED then ret ++ ["RTF_WASCLONED"] else ret
  let ret := if t &&& RTF_XRESOLVE = RTF_XRESOLVE then ret ++ ["RTF_XRESOLVE"] else ret
  ret

/-- Embedding of `isFlagGateway`: `t & RTF_GATEWAY == RTF_GATEWAY`. -/
def isFlagGateway (t : Nat) : Bool := t &&& RTF_GATEWAY == RTF_GATEWAY

/-- Embedding of `isFlagHost`: `t & RTF_HOST == RTF_HOST`. -/
def isFlagHost (t : Nat) : Bool := t &&& RTF_HOST == RTF_HOST

/-- Embedding of `isFlagIFRef`: `t & RTF_IFREF == RTF_IFREF`. -/
def isFlagIFRef (t : Nat) : Bool := t &&& RTF_IFREF == RTF_IFREF

/-! ## Address and message data model (`golang.org/x/net/route` types) -/

/-- Embedding of `route.Inet4Addr`: a four-octet IPv4 address (`IP [4]byte`).
Octets are modelled as `Nat`; in the source they are bytes (`< 256`). -/
structure Inet4Addr where
  ip0 : Nat
  ip1 : Nat
  ip2 : Nat
  ip3 : Nat
deriving DecidableEq, Repr

/-- Embedding of `route.LinkAddr`: a link-layer address with its own interface
index, interface name, and hardware address bytes. -/
structure LinkAddr where
  Index : Nat
  Name : String
  Addr : List Nat
deriving DecidableEq, Repr

/-- Tagged union over the `route.Addr` implementations the source handles:
`Inet4Addr` (family `AF_INET`), `LinkAddr` (family `AF_LINK`), and any other
address value carrying its family tag (covers the library's remaining `Addr`
implementations, whose family is neither `AF_INET` nor `AF_LINK`). -/
inductive RAddr where
  | inet4 (a : Inet4Addr)
  | link (a : LinkAddr)
  | other (family : Nat)
deriving DecidableEq, Repr

/-- The `Family()` method: `AF_INET` for `Inet4Addr`, `AF_LINK` for
`LinkAddr`, the carried family tag otherwise. -/
def RAddr.family : RAddr → Nat
  | .inet4 _ => AF_INET
  | .link _ => AF_LINK
  | .other f => f

/-- Embedding of `route.RouteMessage` as used by the source: operation type,
flags bitmask, interface index, and the address slot list (`Addrs []Addr`,
where absent slots are `nil`, modelled as `none`).  The Go field `Type` is
named `Typ` here because `Type` is reserved in Lean. -/
structure RouteMessage where
  Typ : Nat
  Flags : Nat
  Index : Nat
  Addrs : List (Option RAddr)
deriving DecidableEq, Repr

/-! ## String rendering helpers (embeddings of the `fmt` format verbs used) -/

/-- Rendering of `fmt.Sprintf("%d.%d.%d.%d", a.IP[0], a.IP[1], a.IP[2], a.IP[3])`. -/
def inet4String (a : Inet4Addr) : String :=
  toString a.ip0 ++ "." ++ toString a.ip1 ++ "." ++ toString a.ip2 ++ "." ++ toString a.ip3

/-- Rendering of `fmt.Sprintf("%x", b)` for a byte `b`: minimal lowercase
hexadecimal digits, no leading-zero padding (`0` renders as `"0"`).
`Nat.toDigits 16` produces exactly Go's lowercase hex digits. -/
def goHexByte (b : Nat) : String := String.mk (Nat.toDigits 16 (b % 256))

/-- Rendering of `fmt.Sprintf("%v", s)` for a Go `[]string` value `s`: the
elements joined by single spaces, enclosed in square brackets. -/
def goStringSliceV (l : List String) : String :=
  "[" ++ String.intercalate " " l ++ "]"

/-! ## Netmask size (embedding of `net.IPv4Mask(...).Size()` from Go's `net`
package, which the source calls at `main_darwin.go:124`) -/

/-- Embedding of the inner loop of `net.simpleMaskLength` on one byte:
`for v&0x80 != 0 { n++; v <<= 1 }`.  Returns the count of leading one bits
and the final (shifted) value of `v`.  The shift is on a Go `byte`, hence the
explicit `% 256`; fuel 8 suffices because each shift clears one more low bit,
so a byte reaches 0 after at most 8 iterations. -/
def byteOnes : Nat → Nat → Nat × Nat
  | 0, v => (0, v)
  | fuel + 1, v =>
    if v &&& 0x80 ≠ 0 then
      let p := byteOnes fuel ((v <<< 1) % 256)
      (p.1 + 1, p.2)
    else (0, v)

/-- Embedding of the body of `net.simpleMaskLength`, walking the mask bytes
with the accumulated bit count `n`.  A `0xff` byte adds 8 and continues; at
the first non-`0xff` byte the leading ones are counted, the shifted remainder
must be 0 and every later byte must be 0 (otherwise the mask is
non-contiguous and the result is `-1`), and the walk stops.  A walk that ends
without meeting a non-`0xff` byte returns the accumulated count. -/
def smlAux : List Nat → Nat → Int
  | [], n => Int.ofNat n
  | v :: rest, n =>
    if v = 0xff then smlAux rest (n + 8)
    else
      let p := byteOnes 8 v
      if p.2 ≠ 0 then -1
      else if rest.any (fun x => x != 0) then -1
      else Int.ofNat (n + p.1)

/-- Embedding of `net.simpleMaskLength`: the contiguous prefix length of the
mask bytes, or `-1` when the mask is not of the form ones-then-zeros. -/
def simpleMaskLength (m : List Nat) : Int := smlAux m 0

/-- The `ones` component of `net.IPv4Mask(a, b, c, d).Size()` as the source
uses it (`l, _ := ...Size()`): `simpleMaskLength`, with the `-1`
(non-contiguous) case mapped to `0`.  The `% 256` models the conversion of
the arguments to Go `byte`s. -/
def maskSizeOnes (a : Inet4Addr) : Nat :=
  let s := simpleMaskLength [a.ip0 % 256, a.ip1 % 256, a.ip2 % 256, a.ip3 % 256]
  if s = -1 then 0 else s.toNat

/-! ## The record filter/mapper (`dump`) -/

/-- Embedding of the slot-count loop in `dump` (`main_darwin.go:95-101`):
`len := 0; for i, a := range msg.Addrs { if a == nil { len = i; break } }`.
The accumulator `i` is the current index; note that, as in the source, a walk
that never meets a `nil` slot leaves the count at its initial value `0`. -/
def addrCountAux : List (Option RAddr) → Nat → Nat
  | [], _ => 0
  | none :: _, i => i
  | some _ :: rest, i => addrCountAux rest (i + 1)

/-- The number of populated address slots as computed by `dump`: the index of
the first `nil` slot, or `0` when no slot is `nil` (including the empty
list). -/
def addrCount (addrs : List (Option RAddr)) : Nat := addrCountAux addrs 0

/-! Diagnostic lines.  Each is the constant format string of the
corresponding `fmt.Printf` in the source; the dynamic payload is not
modelled. -/

/-- Diagnostic of `main_darwin.go:91` (interface resolution failed). -/
def ifaceDiag : String := "unable to find interface %d, %v\n"

/-- Diagnostic of `main_darwin.go:104` (fewer than 2 populated slots). -/
def addrCountDiag : String := "address should have at least 2 entries, but got %v\n"

/-- Diagnostic of `main_darwin.go:109` (destination slot not `Inet4Addr`). -/
def destTypeDiag : String := "destination address should be route.Inet4Addr, but got %v\n"

/-- Diagnostic of `main_darwin.go:116` (3rd slot family not `AF_INET`). -/
def maskFamilyDiag : String := "3rd address should be AF_INET type mask, but got %v\n"

/-- Diagnostic of `main_darwin.go:121` (3rd slot not `Inet4Addr`). -/
def maskTypeDiag : String := "3rd address should be route.Inet4Addr, but got %v\n"

/-- Diagnostic of `main_darwin.go:136` (gateway family `AF_INET` but not `Inet4Addr`). -/
def gwInetDiag : String := "Unknown gateway INET addrs %v\n"

/-- Diagnostic of `main_darwin.go:143` (gateway family `AF_LINK` but not `LinkAddr`). -/
def gwLinkDiag : String := "Unknown gateway link addrs %v\n"

/-- Diagnostic of `main_darwin.go:156` (gateway family neither `AF_INET` nor `AF_LINK`). -/
def gwUnknownDiag : String := "Unknown gateway addrs %v\n"

/-- Diagnostic of `main_darwin.go:79` (parsed message is not a route message). -/
def nonRouteDiag : String := "received non route message: %v\n"

/-- The four-field display record built by `dump` and written to the tab
writer. -/
structure DisplayRecord where
  destination : String
  gateway : String
  interfaceName : String
  flagNames : List String
deriving DecidableEq, Repr

/-- Outcome of `dump` on one route message: dropped silently (the
gateway+host+ifref early return), skipped with one diagnostic line, or one
display record written as a table row. -/
inductive DumpResult where
  | dropped
  | skipped (diag : String)
  | row (r : DisplayRecord)
deriving DecidableEq, Repr

/-- Embedding of `dump` (`main_darwin.go:84-168`).  `interfaceByIndex` models
`net.InterfaceByIndex` (`none` = error).  Control flow mirrors the source:
the flags drop rule, interface resolution, the slot count check, the
destination slot type check, the netmask branch (only when the count is
exactly 3), and the gateway family dispatch.  Slot accesses `msg.Addrs[i]`
are modelled with `List.getD i none`; the `none` fallbacks inside branches
guarded by the count are unreachable for count-consistent messages and are
mapped to the skip the source's corresponding failed check would produce. -/
def dump (msg : RouteMessage) (interfaceByIndex : Nat → Option String) : DumpResult :=
  if isFlagGateway msg.Flags && isFlagHost msg.Flags && isFlagIFRef msg.Flags then
    DumpResult.dropped
  else
    match interfaceByIndex msg.Index with
    | none => DumpResult.skipped ifaceDiag
    | some intfName =>
      let len := addrCount msg.Addrs
      if len < 2 then DumpResult.skipped addrCountDiag
      else
        match msg.Addrs.getD 0 none with
        | some (RAddr.inet4 destIP) =>
          let destination := inet4String destIP
          let destStep : Except String String :=
            if len = 3 then
              match msg.Addrs.getD 2 none with
              | some m =>
                if m.family ≠ AF_INET then Except.error maskFamilyDiag
                else
                  match m with
                  | RAddr.inet4 a =>
                    let l := maskSizeOnes a
                    if l = 0 then Except.ok "default"
                    else Except.ok (destination ++ "/" ++ toString l)
                  | _ => Except.error maskTypeDiag
              | none => Except.error maskFamilyDiag
            else Except.ok destination
          match destStep with
          | Except.error d => DumpResult.skipped d
          | Except.ok destination =>
            match msg.Addrs.getD 1 none with
            | some gw =>
              if gw.family = AF_INET then
                match gw with
                | RAddr.inet4 g =>
                  DumpResult.row ⟨destination, inet4String g, intfName, getFlags msg.Flags⟩
                | _ => DumpResult.skipped gwInetDiag
              else if gw.family = AF_LINK then
                match gw with
                | RAddr.link link =>
                  if len = 3 then
                    DumpResult.row
                      ⟨destination, "link#" ++ toString link.Index, intfName,
                        getFlags msg.Flags⟩
                  else
                    DumpResult.row
                      ⟨destination, String.intercalate ":" (link.Addr.map goHexByte),
                        intfName, getFlags msg.Flags⟩
                | _ => DumpResult.skipped gwLinkDiag
              else DumpResult.skipped gwUnknownDiag
            | none => DumpResult.skipped gwUnknownDiag
        | _ => DumpResult.skipped destTypeDiag

/-! ## The main pipeline -/

/-- Banner printed by `fmt.Println` at `main_darwin.go:60` (to standard
output; `Println` appends a newline). -/
def bannerLine : String := "mac's equivalant command: net -nr\n"

/-- Header row written to the tab writer at `main_darwin.go:73`. -/
def headerLine : String := "Destination\tGateway\tNetif\tFlags\n"

/-- The table row written for a display record
(`fmt.Sprintf("%v\t%v\t%v\t%v\n", ...)` at `main_darwin.go:162`); the flag
name list is rendered by Go's native `%v` form for a string slice. -/
def rowLine (r : DisplayRecord) : String :=
  r.destination ++ "\t" ++ r.gateway ++ "\t" ++ r.interfaceName ++ "\t" ++
    goStringSliceV r.flagNames ++ "\n"

/-- A message produced by `route.ParseRIB`: either a route message or some
other (non-route) message kind, which `main` reports and ignores. -/
inductive PMsg where
  | route (m : RouteMessage)
  | nonRoute
deriving DecidableEq, Repr

/-- The diagnostic line (if any) that processing one parsed message prints to
standard output: the non-route report, or the skip diagnostic of `dump`. -/
def diagOf (ifaces : Nat → Option String) : PMsg → Option String
  | PMsg.route m =>
    match dump m ifaces with
    | DumpResult.skipped d => some d
    | _ => none
  | PMsg.nonRoute => some nonRouteDiag

/-- The table row (if any) that processing one parsed message writes to the
tab writer. -/
def rowOf (ifaces : Nat → Option String) : PMsg → Option String
  | PMsg.route m =>
    match dump m ifaces with
    | DumpResult.row r => some (rowLine r)
    | _ => none
  | PMsg.nonRoute => none

/-- Observable outcome of one program run: the exit status, the lines printed
directly to standard output (`fmt.Print*`), the lines printed to standard
error (`log.Fatal`), and the rows written to the tab writer (which wraps
standard output and is flushed once at exit). -/
structure ProgOutput where
  exitCode : Nat
  stdout : List String
  stderr : List String
  table : List String
deriving DecidableEq, Repr

/-- Embedding of `main` (`main_darwin.go:59-82`).  `fetch` models
`route.FetchRIB` and `parseRIB` models `route.ParseRIB` (errors carried as
strings).  `log.Fatal` prints to standard error and exits with status 1; on
the fatal paths the tab writer was never created, so the table is empty.  On
success the loop prints one diagnostic per skipped/non-route message and
writes one row per surviving record, then exits with status 0. -/
def runMain (fetch : Except String (List Nat))
    (parseRIB : List Nat → Except String (List PMsg))
    (ifaces : Nat → Option String) : ProgOutput :=
  match fetch with
  | Except.error e => ⟨1, [bannerLine], [e], []⟩
  | Except.ok pkt =>
    match parseRIB pkt with
    | Except.error e => ⟨1, [bannerLine], [e], []⟩
    | Except.ok msgs =>
      ⟨0, bannerLine :: msgs.filterMap (diagOf ifaces), [],
        headerLine :: msgs.filterMap (rowOf ifaces)⟩

/-- The byte stream that reaches the OS standard-output file descriptor: the
direct `fmt.Print*` writes followed by the tab writer's buffered table
(flushed once at exit by the deferred `Flush`). -/
def stdoutStream (o : ProgOutput) : List String := o.stdout ++ o.table

/-! ## Specification-level definitions (for comparison in refinement claims;
these follow the spec's words, not the source) -/

/-- Count of leading one-bits of `v` read as a 32-bit big-endian value, as
the spec words it ("count of leading one-bits when octets are read as a
single big-endian value"). -/
def specLeadingOnes32 (v : Nat) : Nat :=
  ((List.range 32).takeWhile (fun i => v / 2 ^ (31 - i) % 2 == 1)).length

/-- The 32-bit value of a contiguous netmask of prefix length `k`: `k`
one-bits followed by `32 - k` zero-bits. -/
def specMaskVal (k : Nat) : Nat := 2 ^ 32 - 2 ^ (32 - k)

/-- The contiguous prefix length of a 32-bit mask value, when the mask
consists of ones followed by zeros (`none` for a non-contiguous mask). -/
def specMaskSize (v : Nat) : Option Nat :=
  (List.range 33).find? (fun k => v == specMaskVal k)

/-- The 32-bit big-endian value of four mask octets. -/
def dq32 (a b c d : Nat) : Nat := ((a * 256 + b) * 256 + c) * 256 + d

/-! ## Proof-helper definitions (canonical forms used only in proofs) -/

/-- Canonical segment form of a (mask, name) table scan: the concatenation of
one singleton-or-empty segment per table entry.  Used to relate `getFlags` to
a filter over `rtfTable`. -/
def segs (t : Nat) : List (Nat × String) → List String
  | [] => []
  | (m, n) :: rest => (if t &&& m = m then [n] else []) ++ segs t rest

/-- Strict lexicographic comparison of character lists by code point. -/
def charsLtB : List Char → List Char → Bool
  | [], [] => false
  | [], _ :: _ => true
  | _ :: _, [] => false
  | a :: as, b :: bs =>
    if a.toNat < b.toNat then true
    else if a.toNat = b.toNat then charsLtB as bs
    else false

/-- Strict lexicographic (ASCII/alphabetical) comparison of strings. -/
def strLtB (a b : String) : Bool := charsLtB a.data b.data

/-- Check that a list of strings is strictly sorted in lexicographic order. -/
def chainLtB : List String → Bool
  | [] => true
  | [_] => true
  | a :: b :: rest => strLtB a b && chainLtB (b :: rest)

/-- Big-endian base-256 value of a byte list (used to state correctness of
`simpleMaskLength`). -/
def valList : List Nat → Nat
  | [] => 0
  | v :: rest => v * 256 ^ rest.length + valList rest

/-! ## Helper lemmas about `getFlags` -/

theorem list_ite_app (c : Prop) [Decidable c] (X : List String) (n : String) :
    (if c then X ++ [n] else X) = X ++ (if c then [n] else []) := by
  split <;> simp

theorem filter_map_eq_segs (t : Nat) (l : List (Nat × String)) :
    (l.filter (fun p => t &&& p.1 == p.1)).map Prod.snd = segs t l := by
  induction l with
  | nil => rfl
  | cons p rest ih =>
    obtain ⟨m, n⟩ := p
    simp only [List.filter_cons, segs]
    by_cases h : t &&& m = m
    · simp [h, ih]
    · simp [h, ih]

theorem getFlags_eq_segs (t : Nat) : getFlags t = segs t rtfTable := by
  simp only [getFlags, list_ite_app]
  simp only [List.nil_append, List.append_assoc]
  simp only [segs, rtfTable, List.append_nil, List.append_assoc]

/-- `getFlags` is exactly the name projection of the table entries whose mask
bits are all set in `t`, scanned in table order. -/
theorem getFlags_eq_filter (t : Nat) :
    getFlags t = (rtfTable.filter (fun p => t &&& p.1 == p.1)).map Prod.snd := by
  rw [filter_map_eq_segs, getFlags_eq_segs]

theorem rtf_snd_inj : ∀ p ∈ rtfTable, ∀ q ∈ rtfTable, p.2 = q.2 → p.1 = q.1 := by decide

theorem rtf_names_nodup : (rtfTable.map Prod.snd).Nodup := by decide

theorem mem_getFlags_iff (t m : Nat) (n : String) (h : (m, n) ∈ rtfTable) :
    n ∈ getFlags t ↔ t &&& m = m := by
  rw [getFlags_eq_filter]
  constructor
  · intro hn
    obtain ⟨p, hp, hpn⟩ := List.mem_map.mp hn
    obtain ⟨hpt, hpred⟩ := List.mem_filter.mp hp
    have : p.1 = m := rtf_snd_inj p hpt (m, n) h (by simpa using hpn)
    rw [← this]
    simpa using hpred
  · intro hm
    refine List.mem_map.mpr ⟨(m, n), List.mem_filter.mpr ⟨h, by simpa using hm⟩, rfl⟩

theorem getFlags_sublist (t : Nat) : (getFlags t).Sublist (rtfTable.map Prod.snd) := by
  rw [getFlags_eq_filter]
  exact (List.filter_sublist _).map _

theorem getFlags_nodup (t : Nat) : (getFlags t).Nodup :=
  rtf_names_nodup.sublist (getFlags_sublist t)

theorem rtf_single_bit : ∀ p ∈ rtfTable, p.1 ∈ (List.range 27).map (fun k => 2 ^ k) := by
  decide

theorem rtf_sorted : chainLtB (rtfTable.map Prod.snd) = true := by decide

/-! ## Helper lemmas about the netmask size computation -/

set_option maxRecDepth 2048 in
theorem byteOnes_contig : ∀ v, v < 256 → v ≠ 255 → (byteOnes 8 v).2 = 0 →
    (byteOnes 8 v).1 ≤ 8 ∧ v = 256 - 2 ^ (8 - (byteOnes 8 v).1) := by decide

theorem sml_digits : ∀ k, k < 33 →
    simpleMaskLength [specMaskVal k / 16777216 % 256, specMaskVal k / 65536 % 256,
      specMaskVal k / 256 % 256, specMaskVal k % 256] = Int.ofNat k := by decide

theorem dq32_digits (a b c d V : Nat) (ha : a < 256) (hb : b < 256) (hc : c < 256)
    (hd : d < 256) (h : dq32 a b c d = V) :
    a = V / 16777216 % 256 ∧ b = V / 65536 % 256 ∧ c = V / 256 % 256 ∧ d = V % 256 := by
  unfold dq32 at h
  omega

theorem valList_zero (l : List Nat) (h : ∀ x ∈ l, x = 0) : valList l = 0 := by
  induction l with
  | nil => rfl
  | cons v rest ih =>
    have hv : v = 0 := h v (by simp)
    have : valList rest = 0 := ih (fun x hx => h x (by simp [hx]))
    simp [valList, hv, this]

/-- A run of `smlAux` that does not return `-1` certifies that the byte list
is a contiguous mask: its value is ones-then-zeros, and the returned count is
the accumulated count plus the number of one bits. -/
theorem smlAux_spec (l : List Nat) (hl : ∀ v ∈ l, v < 256) (n : Nat)
    (h : smlAux l n ≠ -1) :
    ∃ m, m ≤ 8 * l.length ∧
      valList l = 2 ^ (8 * l.length) - 2 ^ (8 * l.length - m) ∧
      smlAux l n = Int.ofNat (n + m) := by
  induction l generalizing n with
  | nil =>
    exact ⟨0, by simp, by simp [valList], by simp [smlAux]⟩
  | cons v rest ih =>
    have hstep : smlAux (v :: rest) n =
        if v = 255 then smlAux rest (n + 8)
        else
          if (byteOnes 8 v).2 ≠ 0 then -1
          else if rest.any (fun x => x != 0) then -1
          else Int.ofNat (n + (byteOnes 8 v).1) := rfl
    have hP : (256 : Nat) ^ rest.length = 2 ^ (8 * rest.length) := by
      rw [show (256 : Nat) = 2 ^ 8 by norm_num, ← pow_mul]
    have hR : (2 : Nat) ^ (8 * (rest.length + 1)) = 256 * 2 ^ (8 * rest.length) := by
      rw [show 8 * (rest.length + 1) = 8 + 8 * rest.length by ring, pow_add]
      norm_num
    by_cases hv : v = 255
    · rw [hstep, if_pos hv] at h
      obtain ⟨m, hm, hval, hsml⟩ := ih (fun x hx => hl x (by simp [hx])) (n + 8) h
      refine ⟨8 + m, by simp [List.length_cons]; omega, ?_, ?_⟩
      · have hQle : (2 : Nat) ^ (8 * rest.length - m) ≤ 2 ^ (8 * rest.length) :=
          Nat.pow_le_pow_right (by norm_num) (by omega)
        have hexp : 8 * (rest.length + 1) - (8 + m) = 8 * rest.length - m := by
          omega
        simp only [List.length_cons]
        rw [valList, hval, hv, hP, hR, hexp]
        omega
      · rw [hstep, if_pos hv, hsml]
        congr 1
        omega
    · rw [hstep, if_neg hv] at h
      by_cases h2 : (byteOnes 8 v).2 = 0
      · rw [if_neg (by simp [h2])] at h
        by_cases hrest : rest.any (fun x => x != 0)
        · rw [if_pos hrest] at h
          exact absurd rfl h
        · rw [if_neg hrest] at h
          obtain ⟨hle, hvE⟩ := byteOnes_contig v (hl v (by simp)) hv h2
          have hrest0 : ∀ x ∈ rest, x = 0 := by
            intro x hx
            by_contra hx0
            exact hrest (List.any_eq_true.mpr ⟨x, hx, by simpa using hx0⟩)
          set m := (byteOnes 8 v).1 with hmdef
          refine ⟨m, by simp [List.length_cons]; omega, ?_, ?_⟩
          · have hEP : (2 : Nat) ^ (8 * (rest.length + 1) - m) =
                2 ^ (8 - m) * 2 ^ (8 * rest.length) := by
              rw [← pow_add]
              congr 1
              omega
            simp only [List.length_cons]
            rw [valList, valList_zero rest hrest0, add_zero, hvE, hP, hR, hEP]
            exact Nat.sub_mul 256 (2 ^ (8 - m)) (2 ^ (8 * rest.length))
          · rw [hstep, if_neg hv, if_neg (by simp [h2]), if_neg hrest]
      · rw [if_pos h2] at h
        exact absurd rfl h

theorem valList_dq32 (a b c d : Nat) : valList [a, b, c, d] = dq32 a b c d := by
  simp only [valList, dq32, List.length_cons, List.length_nil]
  ring

/-- Correctness of the source's mask-size computation against the spec-level
contiguous-prefix definition: on four bytes it returns the contiguous prefix
length when the 32-bit value is ones-then-zeros, and `-1` otherwise. -/
theorem sml_eq_specMaskSize (a b c d : Nat) (ha : a < 256) (hb : b < 256)
    (hc : c < 256) (hd : d < 256) :
    simpleMaskLength [a, b, c, d] =
      match specMaskSize (dq32 a b c d) with
      | some k => Int.ofNat k
      | none => -1 := by
  cases hfind : specMaskSize (dq32 a b c d) with
  | some k =>
    have hk33 : k < 33 := List.mem_range.mp (List.mem_of_find?_eq_some hfind)
    have hkeq : dq32 a b c d = specMaskVal k := by simpa using List.find?_some hfind
    obtain ⟨h1, h2, h3, h4⟩ := dq32_digits a b c d (specMaskVal k) ha hb hc hd hkeq
    rw [h1, h2, h3, h4]
    exact sml_digits k hk33
  | none =>
    by_contra hne
    obtain ⟨m, hm, hval, _⟩ :=
      smlAux_spec [a, b, c, d] (by intro v hv; simp at hv; rcases hv with h | h | h | h <;> omega)
        0 hne
    norm_num [List.length_cons, List.length_nil] at hval hm
    have hmv : dq32 a b c d = specMaskVal m := by
      rw [← valList_dq32, hval, specMaskVal]
      norm_num
    have := List.find?_eq_none.mp hfind m (List.mem_range.mpr (by omega))
    simp [hmv] at this

/-! ## Helper lemmas about `dump` -/

theorem ite_ok_eq (c : Prop) [inst : Decidable c] (s1 s2 d : String) :
    ((if c then Except.ok s1 else Except.ok s2) = (Except.ok d : Except String String)) ↔
      d = if c then s1 else s2 := by
  split <;> simp [eq_comm]

theorem inet4_family_ite {α : Type} (a : Inet4Addr) (x y : α) :
    (if (RAddr.inet4 a).family = AF_INET then x else y) = x := by
  simp [RAddr.family]

theorem addrCountAux_char (l : List (Option RAddr)) :
    ∀ i, addrCountAux l i =
      if l.any (fun a => a.isNone) then i + l.findIdx (fun a => a.isNone) else 0 := by
  induction l with
  | nil => intro i; simp [addrCountAux]
  | cons a rest ih =>
    intro i
    cases a with
    | none => simp [addrCountAux, List.findIdx_cons]
    | some x =>
      simp only [addrCountAux, ih (i + 1), List.any_cons, List.findIdx_cons,
        Option.isNone_some, Bool.false_or, cond_false]
      split <;> omega

/-- The slot count computed by `dump` is the index of the first absent slot
when one exists, and `0` when every slot is populated. -/
theorem addrCount_char (l : List (Option RAddr)) :
    addrCount l =
      if l.any (fun a => a.isNone) then l.findIdx (fun a => a.isNone) else 0 := by
  rw [addrCount, addrCountAux_char]
  split <;> omega

theorem c2_skip_lt2 (msg : RouteMessage) (f : Nat → Option String) (name : String)
    (hflags : ¬(isFlagGateway msg.Flags = true ∧ isFlagHost msg.Flags = true ∧
      isFlagIFRef msg.Flags = true))
    (hif : f msg.Index = some name) (hlt : addrCount msg.Addrs < 2) :
    dump msg f = DumpResult.skipped addrCountDiag := by
  unfold dump
  rw [if_neg (by simpa [Bool.and_eq_true, and_assoc] using hflags), hif]
  simp only [if_pos hlt]

theorem gw_stage_ne (o : Option RAddr) (d1 i1 : String) (fns : List String)
    (c : Prop) [Decidable c] :
    (match o with
     | some gw =>
       if gw.family = AF_INET then
         match gw with
         | RAddr.inet4 g => DumpResult.row ⟨d1, inet4String g, i1, fns⟩
         | _ => DumpResult.skipped gwInetDiag
       else if gw.family = AF_LINK then
         match gw with
         | RAddr.link link =>
           if c then DumpResult.row ⟨d1, "link#" ++ toString link.Index, i1, fns⟩
           else DumpResult.row ⟨d1, String.intercalate ":" (link.Addr.map goHexByte), i1, fns⟩
         | _ => DumpResult.skipped gwLinkDiag
       else DumpResult.skipped gwUnknownDiag
     | none => DumpResult.skipped gwUnknownDiag) ≠ DumpResult.skipped addrCountDiag := by
  rcases o with _ | gw
  · simp [gwUnknownDiag, addrCountDiag]
  · rcases gw with a | la | fam
    · simp [RAddr.family, AF_INET]
    · simp only [RAddr.family, AF_INET, AF_LINK]
      norm_num
      split <;> simp
    · simp only [RAddr.family]
      split
      · simp [gwInetDiag, addrCountDiag]
      · split
        · simp [gwLinkDiag, addrCountDiag]
        · simp [gwUnknownDiag, addrCountDiag]

theorem dest_gw_stage_ne (e : Except String String) (o : Option RAddr)
    (i1 : String) (fns : List String) (c : Prop) [Decidable c] :
    (∀ s, e = Except.error s → s ≠ addrCountDiag) →
    (match e with
     | Except.error d => DumpResult.skipped d
     | Except.ok destination =>
       match o with
       | some gw =>
         if gw.family = AF_INET then
           match gw with
           | RAddr.inet4 g => DumpResult.row ⟨destination, inet4String g, i1, fns⟩
           | _ => DumpResult.skipped gwInetDiag
         else if gw.family = AF_LINK then
           match gw with
           | RAddr.link link =>
             if c then DumpResult.row ⟨destination, "link#" ++ toString link.Index, i1, fns⟩
             else
               DumpResult.row
                 ⟨destination, String.intercalate ":" (link.Addr.map goHexByte), i1, fns⟩
           | _ => DumpResult.skipped gwLinkDiag
         else DumpResult.skipped gwUnknownDiag
       | none => DumpResult.skipped gwUnknownDiag) ≠ DumpResult.skipped addrCountDiag := by
  intro he
  rcases e with s | dst
  · intro h
    injection h with h1
    exact he s rfl h1
  · exact gw_stage_ne _ _ _ _ _

theorem c2_noskip_ge2 (msg : RouteMessage) (f : Nat → Option String) (name : String)
    (hflags : ¬(isFlagGateway msg.Flags = true ∧ isFlagHost msg.Flags = true ∧
      isFlagIFRef msg.Flags = true))
    (hif : f msg.Index = some name) (hge : 2 ≤ addrCount msg.Addrs) :
    dump msg f ≠ DumpResult.skipped addrCountDiag := by
  simp only [dump]
  rw [if_neg (by simpa [Bool.and_eq_true, and_assoc] using hflags)]
  simp only [hif]
  rw [if_neg (show ¬(addrCount msg.Addrs < 2) by omega)]
  rcases hg0 : msg.Addrs.getD 0 none with _ | a0
  · simp only [hg0]
    decide
  rcases a0 with a0 | la0 | fam0
  · simp only [hg0]
    by_cases h3 : addrCount msg.Addrs = 3
    · rw [if_pos h3]
      apply dest_gw_stage_ne
      intro s hs
      repeat
        first
        | (injection hs with hs1; subst hs1; decide)
        | exact Except.noConfusion hs
        | split at hs
    · rw [if_neg h3]
      exact gw_stage_ne _ _ _ _ _
  · simp only [hg0]
    decide
  · simp only [hg0]
    decide

/-- C3: whenever `dump` emits a row, the message's flags do not have the
gateway-route, host-route and interface-reference bits simultaneously set:
such messages are dropped before any other processing, so no emitted
`DisplayRecord` has that flag combination. -/
theorem c3_theorem (msg : RouteMessage) (f : Nat → Option String) (r : DisplayRecord)
    (hrow : dump msg f = DumpResult.row r) :
    ¬(isFlagGateway msg.Flags = true ∧ isFlagHost msg.Flags = true ∧
      isFlagIFRef msg.Flags = true) := by
  rintro ⟨h1, h2, h3⟩
  unfold dump at hrow
  rw [if_pos (by simp [h1, h2, h3])] at hrow
  exact DumpResult.noConfusion hrow

/-- C3 witness: the theorem applied to a concrete emitted row, showing the
flags value 3 (UP|GATEWAY) does not have all three bits set. -/
theorem c3_theorem_witness :
    ¬(isFlagGateway 3 = true ∧ isFlagHost 3 = true ∧ isFlagIFRef 3 = true) :=
  c3_theorem ⟨4, 3, 5, [some (RAddr.inet4 ⟨0, 0, 0, 0⟩), some (RAddr.inet4 ⟨10, 0, 0, 1⟩),
      some (RAddr.inet4 ⟨0, 0, 0, 0⟩), none]⟩
    (fun i => if i = 5 then some "en0" else none)
    ⟨"default", "10.0.0.1", "en0", ["RTF_GATEWAY", "RTF_UP"]⟩ (by decide)

/-- C4 (amended): for every emitted record whose gateway slot carries a
link-layer address: if the populated-slot count is exactly 3 the gateway
renders as `"link#<I>"` with I the link address's own interface index;
for any other count it renders as the hardware bytes in minimal lowercase
hex joined by ":". -/
theorem c4_amended_theorem (msg : RouteMessage) (f : Nat → Option String)
    (r : DisplayRecord) (la : LinkAddr) (hrow : dump msg f = DumpResult.row r)
    (hslot : msg.Addrs.getD 1 none = some (RAddr.link la)) :
    (addrCount msg.Addrs = 3 → r.gateway = "link#" ++ toString la.Index) ∧
    (addrCount msg.Addrs ≠ 3 →
      r.gateway = String.intercalate ":" (la.Addr.map goHexByte)) := by
  simp only [dump] at hrow
  rw [hslot] at hrow
  simp only [RAddr.family, AF_INET, AF_LINK] at hrow
  norm_num at hrow
  repeat
    first
    | exact DumpResult.noConfusion hrow
    | split at hrow
  all_goals cases hrow
  all_goals constructor
  all_goals intro hlen
  all_goals simp_all

/-- C4 counterexample: a message whose netmask slot (slot 2) is populated
but which has four populated slots (slot 3 also populated) renders its
link-layer gateway as colon-hex `"aa"`, not `"link#7"`: the code tests for
a populated-slot count of exactly 3, not for presence of the netmask slot. -/
theorem c4_counterexample :
    (RouteMessage.Addrs ⟨4, 3, 5, [some (RAddr.inet4 ⟨10, 0, 0, 0⟩),
        some (RAddr.link ⟨7, "en1", [0xaa]⟩), some (RAddr.inet4 ⟨255, 255, 255, 0⟩),
        some (RAddr.inet4 ⟨0, 0, 0, 0⟩), none]⟩).getD 2 none =
      some (RAddr.inet4 ⟨255, 255, 255, 0⟩) ∧
    dump ⟨4, 3, 5, [some (RAddr.inet4 ⟨10, 0, 0, 0⟩),
        some (RAddr.link ⟨7, "en1", [0xaa]⟩), some (RAddr.inet4 ⟨255, 255, 255, 0⟩),
        some (RAddr.inet4 ⟨0, 0, 0, 0⟩), none]⟩
      (fun i => if i = 5 then some "en0" else none) =
      DumpResult.row ⟨"10.0.0.0", "aa", "en0", ["RTF_GATEWAY", "RTF_UP"]⟩ ∧
    ("aa" : String) ≠ "link#7" := by
  refine ⟨by decide, by decide, by decide⟩

/-- C4 witness: the theorem applied to a concrete 3-slot message with a
link-layer gateway, plus the claim's example `[0x02, 0xAB] → "2:ab"`. -/
theorem c4_amended_theorem_witness :
    ((addrCount [some (RAddr.inet4 ⟨0, 0, 0, 0⟩), some (RAddr.link ⟨7, "en1", [2, 171]⟩),
        some (RAddr.inet4 ⟨255, 255, 255, 0⟩), none] = 3 →
      (⟨"0.0.0.0/24", "link#7", "en0", ["RTF_GATEWAY", "RTF_UP"]⟩ : DisplayRecord).gateway =
        "link#" ++ toString (7 : Nat)) ∧
    (addrCount [some (RAddr.inet4 ⟨0, 0, 0, 0⟩), some (RAddr.link ⟨7, "en1", [2, 171]⟩),
        some (RAddr.inet4 ⟨255, 255, 255, 0⟩), none] ≠ 3 →
      (⟨"0.0.0.0/24", "link#7", "en0", ["RTF_GATEWAY", "RTF_UP"]⟩ : DisplayRecord).gateway =
        String.intercalate ":" ([2, 171].map goHexByte))) ∧
    String.intercalate ":" ([2, 171].map goHexByte) = "2:ab" :=
  ⟨c4_amended_theorem ⟨4, 3, 5, [some (RAddr.inet4 ⟨0, 0, 0, 0⟩),
      some (RAddr.link ⟨7, "en1", [2, 171]⟩), some (RAddr.inet4 ⟨255, 255, 255, 0⟩), none]⟩
    (fun i => if i = 5 then some "en0" else none) _ ⟨7, "en1", [2, 171]⟩ (by decide) (by decide),
   by decide⟩

/-- C1 (amended): for a route message with exactly three populated slots
whose third slot is an IPv4 netmask, the emitted destination is computed
from the mask's contiguous-prefix size: a mask of k one-bits followed by
zero-bits renders `"default"` when k = 0 and `"<dotted-quad>/k"` otherwise
(k then equals the count of leading one-bits); a non-contiguous mask yields
size 0 and renders `"default"`. -/
theorem c1_amended_theorem (ty fl idx : Nat) (f : Nat → Option String)
    (dst : Inet4Addr) (gw : RAddr) (mk : Inet4Addr) (rest : List (Option RAddr))
    (r : DisplayRecord)
    (h0 : mk.ip0 < 256) (h1 : mk.ip1 < 256) (h2 : mk.ip2 < 256) (h3 : mk.ip3 < 256)
    (hrow : dump ⟨ty, fl, idx,
        some (RAddr.inet4 dst) :: some gw :: some (RAddr.inet4 mk) :: none :: rest⟩ f =
      DumpResult.row r) :
    r.destination =
      match specMaskSize (dq32 mk.ip0 mk.ip1 mk.ip2 mk.ip3) with
      | some 0 => "default"
      | some k => inet4String dst ++ "/" ++ toString k
      | none => "default" := by
  have hones : maskSizeOnes mk =
      (match specMaskSize (dq32 mk.ip0 mk.ip1 mk.ip2 mk.ip3) with
       | some k => k
       | none => 0) := by
    unfold maskSizeOnes
    rw [Nat.mod_eq_of_lt h0, Nat.mod_eq_of_lt h1, Nat.mod_eq_of_lt h2, Nat.mod_eq_of_lt h3]
    rw [sml_eq_specMaskSize _ _ _ _ h0 h1 h2 h3]
    cases specMaskSize (dq32 mk.ip0 mk.ip1 mk.ip2 mk.ip3) with
    | some k => simp
    | none => simp
  have hdest : r.destination =
      if maskSizeOnes mk = 0 then "default"
      else inet4String dst ++ "/" ++ toString (maskSizeOnes mk) := by
    cases gw with
    | inet4 g =>
      simp only [dump, addrCount, addrCountAux, List.getD_cons_zero, List.getD_cons_succ,
        Nat.reduceLT, reduceIte, RAddr.family, AF_INET, AF_LINK] at hrow
      repeat
        first
        | exact DumpResult.noConfusion hrow
        | split at hrow
      all_goals cases hrow
      all_goals simp_all [ite_ok_eq]
    | link la =>
      simp only [dump, addrCount, addrCountAux, List.getD_cons_zero, List.getD_cons_succ,
        Nat.reduceLT, reduceIte, RAddr.family, AF_INET, AF_LINK] at hrow
      repeat
        first
        | exact DumpResult.noConfusion hrow
        | split at hrow
      all_goals cases hrow
      all_goals simp_all [ite_ok_eq]
    | other fam =>
      simp only [dump, addrCount, addrCountAux, List.getD_cons_zero, List.getD_cons_succ,
        Nat.reduceLT, reduceIte, RAddr.family, AF_INET, AF_LINK] at hrow
      repeat
        first
        | exact DumpResult.noConfusion hrow
        | split at hrow
      all_goals cases hrow
      all_goals simp_all [ite_ok_eq]
  rw [hdest, hones]
  cases hcase : specMaskSize (dq32 mk.ip0 mk.ip1 mk.ip2 mk.ip3) with
  | some k =>
    cases k with
    | zero => simp
    | succ k => simp
  | none => simp

/-- C1 counterexample: the netmask `255.0.255.0` has 8 leading one-bits, so
the claim as stated requires destination `"10.0.0.0/8"`; the code's
`net.IPv4Mask(...).Size()` returns 0 for this non-contiguous mask and the
destination renders as `"default"`. -/
theorem c1_counterexample :
    dump ⟨4, 3, 5, [some (RAddr.inet4 ⟨10, 0, 0, 0⟩), some (RAddr.inet4 ⟨10, 0, 0, 1⟩),
        some (RAddr.inet4 ⟨255, 0, 255, 0⟩), none]⟩
      (fun i => if i = 5 then some "en0" else none) =
      DumpResult.row ⟨"default", "10.0.0.1", "en0", ["RTF_GATEWAY", "RTF_UP"]⟩ ∧
    specLeadingOnes32 (dq32 255 0 255 0) = 8 ∧
    ("default" : String) ≠ "10.0.0.0/8" := by
  refine ⟨by decide, by decide, by decide⟩

/-- C1 witness: the amended theorem applied to a concrete message with mask
`255.255.255.0`, whose emitted destination is `"10.0.0.0/24"`. -/
theorem c1_amended_theorem_witness :
    (⟨"10.0.0.0/24", "10.0.0.1", "en0", ["RTF_GATEWAY", "RTF_UP"]⟩ :
      DisplayRecord).destination =
      match specMaskSize (dq32 255 255 255 0) with
      | some 0 => "default"
      | some k => inet4String ⟨10, 0, 0, 0⟩ ++ "/" ++ toString k
      | none => "default" :=
  c1_amended_theorem 4 3 5 (fun i => if i = 5 then some "en0" else none)
    ⟨10, 0, 0, 0⟩ (RAddr.inet4 ⟨10, 0, 0, 1⟩) ⟨255, 255, 255, 0⟩ [] _
    (by decide) (by decide) (by decide) (by decide) (by decide)

/-- C2 counterexample: a message whose four address slots are all populated
(no `nil` slot at all) has destination and gateway slots populated, yet the
count loop leaves `len = 0` and the message is skipped with the
at-least-2-entries diagnostic, contradicting "any message with at least a
populated destination slot and a populated gateway slot passes". -/
theorem c2_counterexample :
    addrCount [some (RAddr.inet4 ⟨10, 0, 0, 0⟩), some (RAddr.inet4 ⟨10, 0, 0, 1⟩),
        some (RAddr.inet4 ⟨255, 255, 255, 0⟩), some (RAddr.inet4 ⟨0, 0, 0, 0⟩)] = 0 ∧
    (([some (RAddr.inet4 ⟨10, 0, 0, 0⟩), some (RAddr.inet4 ⟨10, 0, 0, 1⟩),
        some (RAddr.inet4 ⟨255, 255, 255, 0⟩), some (RAddr.inet4 ⟨0, 0, 0, 0⟩)] :
        List (Option RAddr)).getD 0 none).isSome = true ∧
    (([some (RAddr.inet4 ⟨10, 0, 0, 0⟩), some (RAddr.inet4 ⟨10, 0, 0, 1⟩),
        some (RAddr.inet4 ⟨255, 255, 255, 0⟩), some (RAddr.inet4 ⟨0, 0, 0, 0⟩)] :
        List (Option RAddr)).getD 1 none).isSome = true ∧
    dump ⟨4, 3, 5, [some (RAddr.inet4 ⟨10, 0, 0, 0⟩), some (RAddr.inet4 ⟨10, 0, 0, 1⟩),
        some (RAddr.inet4 ⟨255, 255, 255, 0⟩), some (RAddr.inet4 ⟨0, 0, 0, 0⟩)]⟩
      (fun i => if i = 5 then some "en0" else none) =
      DumpResult.skipped addrCountDiag := by
  refine ⟨by decide, by decide, by decide, by decide⟩

/-- C2 (amended): the mapper counts populated slots as the index of the
first absent slot, or 0 when no slot is absent (so a message with every
slot populated is also skipped); for a message passing the flag and
interface checks, it is skipped with the address-count diagnostic exactly
when that count is less than 2. -/
theorem c2_amended_theorem (msg : RouteMessage) (f : Nat → Option String) (name : String)
    (hflags : ¬(isFlagGateway msg.Flags = true ∧ isFlagHost msg.Flags = true ∧
      isFlagIFRef msg.Flags = true))
    (hif : f msg.Index = some name) :
    (addrCount msg.Addrs =
      if msg.Addrs.any (fun a => a.isNone) then msg.Addrs.findIdx (fun a => a.isNone)
      else 0) ∧
    (addrCount msg.Addrs < 2 → dump msg f = DumpResult.skipped addrCountDiag) ∧
    (2 ≤ addrCount msg.Addrs → dump msg f ≠ DumpResult.skipped addrCountDiag) :=
  ⟨addrCount_char _, fun h => c2_skip_lt2 msg f name hflags hif h,
   fun h => c2_noskip_ge2 msg f name hflags hif h⟩

/-- C2 witness: a concrete single-populated-slot message is skipped with the
address-count diagnostic. -/
theorem c2_amended_theorem_witness :
    dump ⟨4, 3, 5, [some (RAddr.inet4 ⟨10, 0, 0, 0⟩), none]⟩
      (fun i => if i = 5 then some "en0" else none) = DumpResult.skipped addrCountDiag :=
  (c2_amended_theorem ⟨4, 3, 5, [some (RAddr.inet4 ⟨10, 0, 0, 0⟩), none]⟩
    (fun i => if i = 5 then some "en0" else none) "en0" (by decide) (by decide)).2.1
    (by decide)

/-- C5 counterexample: the end-to-end run on the single default-route
message produces the header plus one row whose flags field is
`"[RTF_GATEWAY RTF_UP]"` (Go's native `%v` rendering of the name slice),
not the comma-joined `"RTF_GATEWAY,RTF_UP"` the claim states. -/
theorem c5_counterexample :
    runMain (Except.ok [])
      (fun _ => Except.ok [PMsg.route ⟨4, 3, 5, [some (RAddr.inet4 ⟨0, 0, 0, 0⟩),
        some (RAddr.inet4 ⟨10, 0, 0, 1⟩), some (RAddr.inet4 ⟨0, 0, 0, 0⟩), none]⟩])
      (fun i => if i = 5 then some "en0" else none) =
      ⟨0, [bannerLine], [],
        [headerLine, "default\t10.0.0.1\ten0\t[RTF_GATEWAY RTF_UP]\n"]⟩ ∧
    ("default\t10.0.0.1\ten0\t[RTF_GATEWAY RTF_UP]\n" : String) ≠
      "default\t10.0.0.1\ten0\tRTF_GATEWAY,RTF_UP\n" := by
  refine ⟨by decide, by decide⟩

/-- C5 (amended): the end-to-end run on the single default-route message
(destination 0.0.0.0, gateway 10.0.0.1, mask 0.0.0.0, interface "en0",
flags UP|GATEWAY) writes the header row followed by exactly one row with
fields "default", "10.0.0.1", "en0" and the flag-name list rendered in
Go's native slice form `"[RTF_GATEWAY RTF_UP]"`, and exits with status 0. -/
theorem c5_amended_theorem :
    runMain (Except.ok [])
      (fun _ => Except.ok [PMsg.route ⟨4, 3, 5, [some (RAddr.inet4 ⟨0, 0, 0, 0⟩),
        some (RAddr.inet4 ⟨10, 0, 0, 1⟩), some (RAddr.inet4 ⟨0, 0, 0, 0⟩), none]⟩])
      (fun i => if i = 5 then some "en0" else none) =
      ⟨0, [bannerLine], [],
        [headerLine,
         "default" ++ "\t" ++ "10.0.0.1" ++ "\t" ++ "en0" ++ "\t" ++
           goStringSliceV ["RTF_GATEWAY", "RTF_UP"] ++ "\n"]⟩ := by
  decide

/-- C6 counterexample: for flags UP|GATEWAY the decoder emits
`["RTF_GATEWAY", "RTF_UP"]`: RTF_UP, the lowest-valued flag, is not
emitted before RTF_GATEWAY, refuting the claimed value-ascending scan
order. -/
theorem c6_counterexample :
    getFlags (RTF_UP ||| RTF_GATEWAY) = ["RTF_GATEWAY", "RTF_UP"] ∧
    (["RTF_GATEWAY", "RTF_UP"] : List String) ≠ ["RTF_UP", "RTF_GATEWAY"] := by
  refine ⟨by decide, by decide⟩

/-- C6 (amended): the flag decoder produces the names of exactly the set
bits of the fixed 25-entry single-bit constant table, scanned in the fixed
table order, which is alphabetical by flag name (not ascending by constant
value); bits not in the table are silently omitted. -/
theorem c6_amended_theorem (t : Nat) :
    getFlags t = (rtfTable.filter (fun p => t &&& p.1 == p.1)).map Prod.snd ∧
    chainLtB (rtfTable.map Prod.snd) = true ∧
    (∀ p ∈ rtfTable, p.1 ∈ (List.range 27).map (fun k => 2 ^ k)) :=
  ⟨getFlags_eq_filter t, rtf_sorted, rtf_single_bit⟩

/-- C6 witness: the amended theorem applied at flags value 3, plus the
single-bit fact discharged for the RTF_UP entry. -/
theorem c6_amended_theorem_witness :
    getFlags 3 = (rtfTable.filter (fun p => 3 &&& p.1 == p.1)).map Prod.snd ∧
    RTF_UP ∈ (List.range 27).map (fun k => 2 ^ k) :=
  ⟨(c6_amended_theorem 3).1, (c6_amended_theorem 3).2.2 (RTF_UP, "RTF_UP") (by decide)⟩

/-- C9: for every flags bitmask t, the decoder output is a subsequence of
the fixed 25-entry name list (so its order never depends on t), contains
no duplicates, and contains a table entry's name exactly when that entry's
single-bit mask is set in t; the decoder is a pure function of t by
construction. -/
theorem c9_theorem (t : Nat) :
    (getFlags t).Sublist (rtfTable.map Prod.snd) ∧
    (getFlags t).Nodup ∧
    rtfTable.length = 25 ∧
    (∀ m n, (m, n) ∈ rtfTable → (n ∈ getFlags t ↔ t &&& m = m)) :=
  ⟨getFlags_sublist t, getFlags_nodup t, by decide,
   fun m n h => mem_getFlags_iff t m n h⟩

/-- C9 witness: the membership property discharged for the RTF_GATEWAY
entry at flags value 3. -/
theorem c9_theorem_witness :
    "RTF_GATEWAY" ∈ getFlags 3 ↔ 3 &&& RTF_GATEWAY = RTF_GATEWAY :=
  (c9_theorem 3).2.2.2 RTF_GATEWAY "RTF_GATEWAY" (by decide)

/-- C10 counterexample: a message with exactly two populated slots and a
link-layer gateway with an empty hardware-byte list is dropped, and no row
is emitted, when its flags have the gateway, host and interface-reference
bits set: the claim's unconditional "a record row is still emitted" fails
for messages caught by the earlier per-record checks. -/
theorem c10_counterexample :
    addrCount [some (RAddr.inet4 ⟨10, 0, 0, 0⟩), some (RAddr.link ⟨7, "en1", []⟩), none] = 2 ∧
    dump ⟨4, 0x4000006, 5,
        [some (RAddr.inet4 ⟨10, 0, 0, 0⟩), some (RAddr.link ⟨7, "en1", []⟩), none]⟩
      (fun i => if i = 5 then some "en0" else none) = DumpResult.dropped := by
  refine ⟨by decide, by decide⟩

/-- C10 (amended): for a two-populated-slot message whose gateway slot is a
link-layer address with an empty hardware-byte list, provided the message
passes the earlier checks (drop-rule flags, interface resolution, IPv4
destination), a row is emitted and its gateway field is the empty string
(the colon join of zero hex bytes). -/
theorem c10_amended_theorem (ty fl idx : Nat) (f : Nat → Option String)
    (dst : Inet4Addr) (la : LinkAddr) (rest : List (Option RAddr)) (name : String)
    (hflags : ¬(isFlagGateway fl = true ∧ isFlagHost fl = true ∧ isFlagIFRef fl = true))
    (hif : f idx = some name) (hAddr : la.Addr = []) :
    dump ⟨ty, fl, idx, some (RAddr.inet4 dst) :: some (RAddr.link la) :: none :: rest⟩ f =
      DumpResult.row ⟨inet4String dst, "", name, getFlags fl⟩ := by
  simp only [dump]
  rw [if_neg (by simpa [Bool.and_eq_true, and_assoc] using hflags)]
  simp only [hif]
  simp only [addrCount, addrCountAux, List.getD_cons_zero, List.getD_cons_succ,
    Nat.reduceLT, reduceIte, RAddr.family, AF_INET, AF_LINK]
  rw [hAddr]
  rfl

/-- C10 witness: the amended theorem applied to a concrete message, giving
an emitted row with empty gateway field. -/
theorem c10_amended_theorem_witness :
    dump ⟨4, 3, 5, [some (RAddr.inet4 ⟨10, 0, 0, 0⟩), some (RAddr.link ⟨7, "en1", []⟩), none]⟩
      (fun i => if i = 5 then some "en0" else none) =
      DumpResult.row ⟨"10.0.0.0", "", "en0", getFlags 3⟩ :=
  c10_amended_theorem 4 3 5 (fun i => if i = 5 then some "en0" else none)
    ⟨10, 0, 0, 0⟩ ⟨7, "en1", []⟩ [] "en0" (by decide) (by decide) rfl

/-- C7: the run exits non-zero exactly when the RIB fetch or the top-level
parse fails, and then no table output is produced; when both succeed the
run exits 0, every per-record diagnostic is printed, and every surviving
record's row is written to the table. -/
theorem c7_theorem (fetch : Except String (List Nat))
    (parseRIB : List Nat → Except String (List PMsg)) (ifaces : Nat → Option String) :
    ((runMain fetch parseRIB ifaces).exitCode = 0 ↔
      ∃ pkt msgs, fetch = Except.ok pkt ∧ parseRIB pkt = Except.ok msgs) ∧
    ((runMain fetch parseRIB ifaces).exitCode ≠ 0 →
      (runMain fetch parseRIB ifaces).table = []) ∧
    (∀ pkt msgs, fetch = Except.ok pkt → parseRIB pkt = Except.ok msgs →
      (runMain fetch parseRIB ifaces).exitCode = 0 ∧
      (∀ m ∈ msgs, ∀ d, diagOf ifaces m = some d →
        d ∈ (runMain fetch parseRIB ifaces).stdout) ∧
      (∀ m ∈ msgs, ∀ rm r, m = PMsg.route rm → dump rm ifaces = DumpResult.row r →
        rowLine r ∈ (runMain fetch parseRIB ifaces).table)) := by
  rcases fetch with e | pkt
  · refine ⟨by simp [runMain], by simp [runMain], ?_⟩
    intro pkt msgs hf
    exact absurd hf (by simp)
  · rcases hp : parseRIB pkt with e | msgs
    · refine ⟨?_, by simp [runMain, hp], ?_⟩
      · simp only [runMain, hp]
        constructor
        · intro h
          exact absurd h (by simp)
        · rintro ⟨pkt', msgs', hf, hpar⟩
          injection hf with hf
          subst hf
          rw [hp] at hpar
          exact absurd hpar (by simp)
      · intro pkt' msgs' hf hpar
        injection hf with hf
        subst hf
        rw [hp] at hpar
        exact absurd hpar (by simp)
    · refine ⟨?_, ?_, ?_⟩
      · simp only [runMain, hp]
        constructor
        · intro _
          exact ⟨pkt, msgs, rfl, hp⟩
        · intro _
          trivial
      · simp [runMain, hp]
      · intro pkt' msgs' hf hpar
        injection hf with hf
        subst hf
        rw [hp] at hpar
        injection hpar with hpar
        subst hpar
        refine ⟨by simp [runMain, hp], ?_, ?_⟩
        · intro m hm d hd
          simp only [runMain, hp]
          exact List.mem_cons_of_mem _ (List.mem_filterMap.mpr ⟨m, hm, hd⟩)
        · intro m hm rm r hmr hdump
          simp only [runMain, hp]
          refine List.mem_cons_of_mem _ (List.mem_filterMap.mpr ⟨m, hm, ?_⟩)
          subst hmr
          simp [rowOf, hdump]

/-- C7 witness: a successful fetch and parse of an empty message list exits
with status 0. -/
theorem c7_theorem_witness :
    (runMain (Except.ok []) (fun _ => Except.ok []) (fun _ => none)).exitCode = 0 :=
  ((c7_theorem (Except.ok []) (fun _ => Except.ok []) (fun _ => none)).2.2 [] [] rfl
    rfl).1

/-- C8 counterexample: in a run with one malformed record, the standard
error stream is empty while both the startup banner and the per-record
diagnostic appear in the standard-output stream, refuting the claim that
they are written to standard error. -/
theorem c8_counterexample :
    (runMain (Except.ok [])
      (fun _ => Except.ok [PMsg.route ⟨4, 3, 5, [some (RAddr.inet4 ⟨10, 0, 0, 0⟩), none]⟩])
      (fun i => if i = 5 then some "en0" else none)).stderr = [] ∧
    bannerLine ∈ stdoutStream (runMain (Except.ok [])
      (fun _ => Except.ok [PMsg.route ⟨4, 3, 5, [some (RAddr.inet4 ⟨10, 0, 0, 0⟩), none]⟩])
      (fun i => if i = 5 then some "en0" else none)) ∧
    addrCountDiag ∈ stdoutStream (runMain (Except.ok [])
      (fun _ => Except.ok [PMsg.route ⟨4, 3, 5, [some (RAddr.inet4 ⟨10, 0, 0, 0⟩), none]⟩])
      (fun i => if i = 5 then some "en0" else none)) := by
  refine ⟨by decide, by decide, by decide⟩

/-- C8 (amended): the startup banner and the per-record diagnostics are
written to standard output, the same OS stream that carries the table
(the table rows reach it through the buffered tab writer); standard error
receives output only on the fatal fetch/parse paths. -/
theorem c8_amended_theorem (fetch : Except String (List Nat))
    (parseRIB : List Nat → Except String (List PMsg)) (ifaces : Nat → Option String) :
    (stdoutStream (runMain fetch parseRIB ifaces)).head? = some bannerLine ∧
    (∀ x ∈ (runMain fetch parseRIB ifaces).table,
      x ∈ stdoutStream (runMain fetch parseRIB ifaces)) ∧
    (∀ pkt msgs, fetch = Except.ok pkt → parseRIB pkt = Except.ok msgs →
      (runMain fetch parseRIB ifaces).stderr = [] ∧
      (∀ m ∈ msgs, ∀ d, diagOf ifaces m = some d →
        d ∈ stdoutStream (runMain fetch parseRIB ifaces))) := by
  rcases fetch with e | pkt
  · refine ⟨by simp [runMain, stdoutStream, bannerLine], by simp [runMain, stdoutStream], ?_⟩
    intro pkt msgs hf
    exact absurd hf (by simp)
  · rcases hp : parseRIB pkt with e | msgs
    · refine ⟨by simp [runMain, hp, stdoutStream, bannerLine],
        by simp [runMain, hp, stdoutStream], ?_⟩
      intro pkt' msgs' hf hpar
      injection hf with hf
      subst hf
      rw [hp] at hpar
      exact absurd hpar (by simp)
    · refine ⟨by simp [runMain, hp, stdoutStream, bannerLine], ?_, ?_⟩
      · intro x hx
        simp only [stdoutStream]
        exact List.mem_append_right _ hx
      · intro pkt' msgs' hf hpar
        injection hf with hf
        subst hf
        rw [hp] at hpar
        injection hpar with hpar
        subst hpar
        refine ⟨by simp [runMain, hp], ?_⟩
        intro m hm d hd
        simp only [runMain, hp, stdoutStream]
        exact List.mem_append_left _
          (List.mem_cons_of_mem _ (List.mem_filterMap.mpr ⟨m, hm, hd⟩))

/-- C8 witness: a successful run has an empty standard-error stream. -/
theorem c8_amended_theorem_witness :
    (runMain (Except.ok []) (fun _ => Except.ok []) (fun _ => none)).stderr = [] :=
  ((c8_amended_theorem (Except.ok []) (fun _ => Except.ok []) (fun _ => none)).2.2 [] []
    rfl rfl).1
